import Mathlib

/-!
# Verification of the quiz application (src/app.py)

A shallow embedding of the quiz application's core logic in Lean 4.

Modelling conventions:
* Python `float` time values and the score arithmetic are modelled over `ℚ`.
* The Flask server-side `session` dictionary is modelled as `Option QuizSession`:
  `start_quiz` writes every quiz key in one block (app.py lines 148-153), so a
  session either holds the whole quiz record or none of its quiz keys.
* `request.form.get` may yield `None`, so form values are `Option String`.
* Python exceptions (KeyError on a missing session key, IndexError on an
  out-of-range list index, ZeroDivisionError) are explicit error outcomes of
  the embedded functions; no session key is written when one is raised, since
  the raise aborts the request before any assignment in the handler body.
* `werkzeug.security.check_password_hash` is an external routine, taken as an
  uninterpreted parameter `check : String → String → Bool`.
-/

/-- A question as stored in questions.json: text, label→text options, and the
correct choice label (app.py / spec data model). -/
structure Question where
  question : String
  options : List (String × String)
  answer : String
deriving DecidableEq, Repr

/-- One stored answer outcome, as appended by submit_answer (app.py 196-202).
`user_answer` is the raw form value, possibly absent. -/
structure AnswerRecord where
  question : String
  user_answer : Option String
  correct_answer : String
  is_correct : Bool
  options : List (String × String)
deriving DecidableEq, Repr

/-- The quiz keys that start_quiz writes into the Flask session
(app.py 148-153). -/
structure QuizSession where
  category : String
  total_questions : Nat
  questions : List Question
  current_index : Nat
  answers : List AnswerRecord
  start_time : ℚ
deriving DecidableEq, Repr

/-- Python list slicing `xs[:stop]` with an `int` stop: a negative stop counts
from the end (clamped at 0), a nonnegative stop is clamped at `len(xs)`. -/
def pySliceTo {α : Type} (xs : List α) (stop : Int) : List α :=
  if stop < 0 then xs.take (xs.length - (-stop).toNat)
  else xs.take stop.toNat

/-- get_questions (app.py 42-45): clamp the requested count to the list length,
then return the prefix `questions[:num_questions]`. -/
def get_questions (questions : List Question) (num_questions : Int) : List Question :=
  let n : Int := if num_questions > (questions.length : Int) then (questions.length : Int)
                 else num_questions
  pySliceTo questions n

/-- The parsed contents of questions.json: `none` when the file is missing or
malformed, otherwise the ordered category → question-list table. -/
def QuestionFile : Type := Option (List (String × List Question))

/-- The value load_questions returns: `None` on a file error, the whole
category table for a falsy category argument (app.py 33-34: the empty string,
or a missing form field arriving as `None`), or one category's question list
(app.py 35). -/
inductive LoadResult where
  | fileError
  | table (cats : List (String × List Question))
  | list (qs : List Question)
deriving DecidableEq, Repr

/-- load_questions with a category argument (app.py 29-39): `None` on a file
error; `data["categories"]` itself when `not category` (the only falsy string
is "", and a missing field behaves the same); else
`data["categories"].get(category, [])`. -/
def load_questions (store : QuestionFile) (category : String) : LoadResult :=
  match store with
  | none => LoadResult.fileError
  | some cats =>
    if category = "" then LoadResult.table cats
    else LoadResult.list ((cats.lookup category).getD [])

/-- The outcome of POST /start: a flash+redirect back to the category page on
bad parameters, a redirect to /quiz on success, or the TypeError raised by
`questions[:num_questions]` in get_questions when a falsy category selected
the whole (truthy, nonempty) category dict — that raise happens after
session['category'] and session['total_questions'] were already written
(app.py 148-150). -/
inductive StartResult where
  | invalidParams
  | started
  | typeErr
deriving DecidableEq, Repr

/-- start_quiz (app.py 138-155): reject when load_questions' result is falsy
(missing file, unknown or empty category name, or an empty category table) or
the requested count is ≤ 0, writing nothing. With a nonempty table from a
falsy category name, write session['category'] and session['total_questions']
(clamped by the table's size) and then raise TypeError slicing the dict: a
prior quiz keeps its other keys, and with no prior quiz no quiz-progress key
exists, so the session stays `none`. Otherwise clamp the count, store the
question prefix, zero the index, clear the answers and record the start
time. -/
def start_quiz (store : QuestionFile) (sess : Option QuizSession) (now : ℚ)
    (category : String) (total_questions : Int) : Option QuizSession × StartResult :=
  match load_questions store category with
  | LoadResult.fileError => (sess, StartResult.invalidParams)
  | LoadResult.table cats =>
    if cats.isEmpty || total_questions ≤ 0 then
      (sess, StartResult.invalidParams)
    else
      (match sess with
       | none => none
       | some s => some { s with
                          category := category
                          total_questions := (min total_questions (cats.length : Int)).toNat },
       StartResult.typeErr)
  | LoadResult.list questions =>
    if questions.isEmpty || total_questions ≤ 0 then
      (sess, StartResult.invalidParams)
    else
      let tq : Int := min total_questions (questions.length : Int)
      (some { category := category
              total_questions := tq.toNat
              questions := get_questions questions tq
              current_index := 0
              answers := []
              start_time := now },
       StartResult.started)

/-- What GET /quiz renders (app.py 159-178): a redirect home when no quiz has
started, a redirect to /results when complete, the current question page
otherwise; `indexErr` marks an IndexError from `session['questions'][i]`. -/
inductive QuizPage where
  | redirectIndex
  | redirectResults
  | questionPage (question : Question) (question_number : Nat) (total_questions : Nat)
  | indexErr
deriving DecidableEq, Repr

/-- show_question (app.py 159-178): redirect home when `current_index` is not
in the session, redirect to results when `current_index >= total_questions`,
else render `session['questions'][current_index]` as question number
`current_index + 1`. -/
def show_question (sess : Option QuizSession) : QuizPage :=
  match sess with
  | none => QuizPage.redirectIndex
  | some s =>
    if s.current_index ≥ s.total_questions then QuizPage.redirectResults
    else
      match s.questions.get? s.current_index with
      | none => QuizPage.indexErr
      | some question => QuizPage.questionPage question (s.current_index + 1) s.total_questions

/-- The outcome of POST /submit (app.py 182-208): a redirect to /quiz on
success, a KeyError when `session['current_index']` is absent, an IndexError
when `session['questions'][current_index]` is out of range. -/
inductive SubmitResult where
  | redirectQuiz
  | keyErr
  | indexErr
deriving DecidableEq, Repr

/-- The tuple membership test `user_answer in ("A", "B", "C", "D")`
(app.py 190); `none` models a missing form field, never in the tuple. -/
def isChoiceLabel (user_answer : Option String) : Bool :=
  user_answer = some "A" || user_answer = some "B" ||
  user_answer = some "C" || user_answer = some "D"

/-- submit_answer (app.py 182-208): read `session['current_index']` (KeyError
when the quiz keys are absent), index the question list (IndexError when out of
range), score the form value — anything outside A/B/C/D is incorrect, a label
is correct iff it equals the stored answer — append one AnswerRecord and
advance the index. An exception aborts the handler before any session write. -/
def submit_answer (sess : Option QuizSession) (user_answer : Option String) :
    Option QuizSession × SubmitResult :=
  match sess with
  | none => (none, SubmitResult.keyErr)
  | some s =>
    match s.questions.get? s.current_index with
    | none => (some s, SubmitResult.indexErr)
    | some question =>
      let is_correct : Bool :=
        if ¬ isChoiceLabel user_answer then false
        else user_answer = some question.answer
      let record : AnswerRecord :=
        { question := question.question
          user_answer := user_answer
          correct_answer := question.answer
          is_correct := is_correct
          options := question.options }
      (some { s with answers := s.answers ++ [record]
                     current_index := s.current_index + 1 },
       SubmitResult.redirectQuiz)

/-- Python's round-half-to-even on an exact rational value. -/
def pyRoundHalfEven (q : ℚ) : ℤ :=
  let f := ⌊q⌋
  let r := q - f
  if r < 1 / 2 then f
  else if 1 / 2 < r then f + 1
  else if f % 2 = 0 then f else f + 1

/-- Python `round(x, 2)`: round to two decimal places, halves to even. -/
def pyRound2 (q : ℚ) : ℚ :=
  (pyRoundHalfEven (q * 100) : ℚ) / 100

/-- Python `int(x)` on a numeric value: truncation toward zero. -/
def pyTrunc (q : ℚ) : ℤ :=
  if q < 0 then ⌈q⌉ else ⌊q⌋

/-- Python floor division `a // b` on numbers (its value is exact for the
inputs at issue here). -/
def pyFloorDiv (a b : ℚ) : ℤ := ⌊a / b⌋

/-- Python `a % b` for a positive modulus `b`: the remainder
`a - b * (a // b)`, which lies in `[0, b)`. -/
def pyMod (a b : ℚ) : ℚ := a - b * (⌊a / b⌋ : ℚ)

/-- Duration formatting of show_results (app.py 219-222): round the elapsed
seconds to 2 decimals, then `minutes = int(t // 60)` and
`seconds = int(t % 60)`, rendered as "<minutes>m <seconds>s". -/
def format_time_taken (elapsed : ℚ) : String :=
  let t := pyRound2 elapsed
  let minutes : ℤ := pyTrunc ((pyFloorDiv t 60 : ℤ) : ℚ)
  let seconds : ℤ := pyTrunc (pyMod t 60)
  toString minutes ++ "m " ++ toString seconds ++ "s"

/-- The values show_results passes to the results template (app.py 225-231). -/
structure ResultsRender where
  category : String
  total_questions : Nat
  correct : Nat
  score : ℚ
  time_taken : String
  answers : List AnswerRecord
deriving DecidableEq, Repr

/-- The outcome of GET /results: redirect home when no quiz data exists, a
ZeroDivisionError when total_questions is 0, or the rendered results. -/
inductive ResultsPage where
  | redirectIndex
  | zeroDivErr
  | page (r : ResultsRender)
deriving DecidableEq, Repr

/-- show_results (app.py 212-231): redirect home when `answers` is not in the
session; else count the correct records, compute
`round(correct / total_questions * 100, 2)` (ZeroDivisionError when
total_questions = 0) and format the elapsed time since start_time. -/
def show_results (sess : Option QuizSession) (now : ℚ) : ResultsPage :=
  match sess with
  | none => ResultsPage.redirectIndex
  | some s =>
    if s.total_questions = 0 then ResultsPage.zeroDivErr
    else
      let correct := (s.answers.filter (fun a => a.is_correct)).length
      ResultsPage.page
        { category := s.category
          total_questions := s.total_questions
          correct := correct
          score := pyRound2 ((correct : ℚ) / (s.total_questions : ℚ) * 100)
          time_taken := format_time_taken (now - s.start_time)
          answers := s.answers }

/-- A stored user row (models.User as used by login/register): unique email,
username, hashed password. -/
structure UserRec where
  email : String
  username : String
  password : String
deriving DecidableEq, Repr

/-- The outcome of a submitted login form (app.py 62-73). -/
inductive LoginResult where
  | success (u : UserRec)
  | failure (msg : String)
deriving DecidableEq, Repr

/-- login on a validated form submission (app.py 62-73): look the email up in
the user table; succeed when a row exists and the hash check passes, otherwise
render the single message "Invalid email or password". `check` stands for
`check_password_hash(stored_hash, password)`. -/
def login (check : String → String → Bool) (users : List UserRec)
    (email password : String) : LoginResult :=
  match users.find? (fun u => u.email = email) with
  | some user =>
    if check user.password password then LoginResult.success user
    else LoginResult.failure "Invalid email or password"
  | none => LoginResult.failure "Invalid email or password"

/-- A Flask route: whether an active `@login_required` decorator guards it, and
its handler. -/
structure Route (I O : Type) where
  requiresLogin : Bool
  handler : I → O

/-- Dispatching a request to a route: an unauthenticated request to a guarded
route is redirected to the login view (`none`) and the handler never runs;
otherwise the handler's response is returned. -/
def runRoute {I O : Type} (r : Route I O) (authenticated : Bool) (input : I) : Option O :=
  if r.requiresLogin && !authenticated then none
  else some (r.handler input)

/-- GET /quiz as routed (app.py 157-159): the `@login_required` decorator is
commented out, so the route is unguarded. -/
def show_question_route : Route (Option QuizSession) QuizPage :=
  { requiresLogin := false, handler := show_question }

/-- POST /submit as routed (app.py 180-182): the `@login_required` decorator is
commented out, so the route is unguarded. -/
def submit_answer_route : Route (Option QuizSession × Option String)
    (Option QuizSession × SubmitResult) :=
  { requiresLogin := false, handler := fun p => submit_answer p.1 p.2 }

/-- GET /results as routed (app.py 210-212): guarded by `@login_required`. -/
def show_results_route : Route (Option QuizSession × ℚ) ResultsPage :=
  { requiresLogin := true, handler := fun p => show_results p.1 p.2 }

/-- A sample question used to instantiate the theorems below. -/
def sampleQ1 : Question :=
  { question := "What is 1+1?"
    options := [("A", "2"), ("B", "3"), ("C", "4"), ("D", "5")]
    answer := "A" }

/-- A second sample question. -/
def sampleQ2 : Question :=
  { question := "What is 2+2?"
    options := [("A", "3"), ("B", "4"), ("C", "5"), ("D", "6")]
    answer := "B" }

/-- A sample questions.json content with one two-question category. -/
def sampleStore : QuestionFile :=
  some [("math", [sampleQ1, sampleQ2])]

/-- Taking a full-length prefix through get_questions returns the whole
list. -/
lemma get_questions_length_self (qs : List Question) :
    get_questions qs (qs.length : Int) = qs := by
  simp [get_questions, pySliceTo]

/-- A completed one-question sample session with one correct answer. -/
def sampleDoneSession : QuizSession :=
  { category := "math"
    total_questions := 1
    questions := [sampleQ1]
    current_index := 1
    answers := [{ question := sampleQ1.question
                  user_answer := some "A"
                  correct_answer := "A"
                  is_correct := true
                  options := sampleQ1.options }]
    start_time := 0 }

/-- C1: for every category C whose question list has k questions and every
requested count n > k, a successful start_quiz stores total_questions = k and
stores as the session's questions exactly the first min(n, k) = k questions of
C in file order (the whole list, unshuffled). A successful start only happens
for a nonempty category name — a falsy name takes the whole-table branch of
load_questions and never reaches `started` — so that is the domain of the
theorem. -/
theorem start_quiz_clamps_to_all_questions
    (cats : List (String × List Question)) (sess : Option QuizSession) (now : ℚ)
    (c : String) (qs : List Question) (n : Int) (hcat : c ≠ "")
    (hlook : cats.lookup c = some qs) (hne : qs ≠ [])
    (hgt : (qs.length : Int) < n) :
    start_quiz (some cats) sess now c n =
      (some { category := c
              total_questions := qs.length
              questions := qs
              current_index := 0
              answers := []
              start_time := now },
       StartResult.started) := by
  have hnpos : ¬ (n ≤ 0) := by
    have : (0 : Int) ≤ qs.length := Int.natCast_nonneg _
    omega
  have hmin : min n (qs.length : Int) = (qs.length : Int) := min_eq_right (le_of_lt hgt)
  have hload : load_questions (some cats) c = LoadResult.list qs := by
    simp [load_questions, hcat, hlook]
  have hcond : (qs.isEmpty || decide (n ≤ 0)) = false := by
    simp [hne, hnpos]
  simp only [start_quiz, hload, hcond, Bool.false_eq_true,
    if_false, hmin, get_questions_length_self, Int.toNat_natCast]

/-- C1 witness: starting the two-question sample category with a request for 5
questions stores both questions and total_questions = 2. -/
theorem start_quiz_clamps_to_all_questions_witness :
    start_quiz sampleStore none 0 "math" 5 =
      (some { category := "math"
              total_questions := 2
              questions := [sampleQ1, sampleQ2]
              current_index := 0
              answers := []
              start_time := 0 },
       StartResult.started) :=
  start_quiz_clamps_to_all_questions [("math", [sampleQ1, sampleQ2])] none 0 "math"
    [sampleQ1, sampleQ2] 5 (by decide) rfl (List.cons_ne_nil _ _) (by decide)

/-- C2 counterexample: a request naming the empty category — a name with no
question list anywhere — with n = 5 > 0 and a nonempty question file is not
rejected and does not leave the session unchanged: load_questions returns the
whole category table (truthy), start_quiz writes session['category'] = "" and
session['total_questions'] = min(5, 1) = 1 over the prior quiz state, and the
handler then raises a TypeError slicing the dict. -/
theorem start_quiz_empty_category_cex :
    start_quiz sampleStore (some sampleDoneSession) 0 "" 5 =
      (some { sampleDoneSession with category := "", total_questions := 1 },
       StartResult.typeErr) ∧
    some { sampleDoneSession with category := "", total_questions := 1 } ≠
      some sampleDoneSession := by
  exact ⟨by decide, by decide⟩

/-- C2 amended: for every requested count n ≤ 0 (any category), and for every
request whose load result is falsy — a missing or malformed file, a nonempty
category name that is absent from the file or has an empty list, or an empty
category table — start_quiz signals invalid parameters and returns the session
unchanged; but a falsy (empty or missing) category name with a nonempty
category table and n > 0 is not rejected: the handler ends in the TypeError
after writing session['category'] and session['total_questions']. -/
theorem start_quiz_rejections_amended
    (store : QuestionFile) (sess : Option QuizSession) (now : ℚ) (c : String) (n : Int) :
    ((n ≤ 0 ∨ load_questions store c = LoadResult.fileError ∨
        load_questions store c = LoadResult.list [] ∨
        load_questions store c = LoadResult.table []) →
      start_quiz store sess now c n = (sess, StartResult.invalidParams)) ∧
    (∀ cats : List (String × List Question),
      load_questions store c = LoadResult.table cats → cats ≠ [] → 0 < n →
      (start_quiz store sess now c n).2 = StartResult.typeErr) := by
  constructor
  · intro h
    rcases h with h | h | h | h
    · cases hl : load_questions store c with
      | fileError => simp [start_quiz, hl]
      | table cats => simp [start_quiz, hl, h]
      | list qs => simp [start_quiz, hl, h]
    · simp [start_quiz, h]
    · simp [start_quiz, h]
    · simp [start_quiz, h]
  · intro cats hl hne hn
    have hcond : (cats.isEmpty || decide (n ≤ 0)) = false := by
      have hnpos : ¬ (n ≤ 0) := by omega
      simp [hne, hnpos]
    simp only [start_quiz, hl, hcond, Bool.false_eq_true, if_false]

/-- C2 witness: a request for 0 questions of the sample category is rejected
with the empty session left empty, and a request for 1 question of the empty
category name ends in the TypeError. -/
theorem start_quiz_rejections_amended_witness :
    start_quiz sampleStore none 0 "math" 0 = (none, StartResult.invalidParams) ∧
    (start_quiz sampleStore none 0 "" 1).2 = StartResult.typeErr :=
  ⟨(start_quiz_rejections_amended sampleStore none 0 "math" 0).1 (Or.inl (by decide)),
   (start_quiz_rejections_amended sampleStore none 0 "" 1).2
     [("math", [sampleQ1, sampleQ2])] (by decide) (by decide) (by decide)⟩

/-- The session produced by starting the sample category with a request for 5
questions. -/
def sampleStartSession : QuizSession :=
  { category := "math"
    total_questions := 2
    questions := [sampleQ1, sampleQ2]
    current_index := 0
    answers := []
    start_time := 0 }

/-- C4: whenever the current question exists, submit_answer never errors on the
answer value: it appends exactly one AnswerRecord and advances the index; a
value outside the labels A, B, C, D (including a missing field) is recorded
with is_correct = false, and a label is recorded correct exactly when it equals
the stored answer of the current question. -/
theorem submit_answer_scoring (s : QuizSession) (ua : Option String) (q : Question)
    (hq : s.questions.get? s.current_index = some q) :
    ∃ rec : AnswerRecord,
      submit_answer (some s) ua =
        (some { s with answers := s.answers ++ [rec]
                       current_index := s.current_index + 1 },
         SubmitResult.redirectQuiz) ∧
      ((ua ≠ some "A" ∧ ua ≠ some "B" ∧ ua ≠ some "C" ∧ ua ≠ some "D") →
        rec.is_correct = false) ∧
      (∀ v : String, ua = some v → (v = "A" ∨ v = "B" ∨ v = "C" ∨ v = "D") →
        (rec.is_correct = true ↔ v = q.answer)) := by
  refine ⟨{ question := q.question
            user_answer := ua
            correct_answer := q.answer
            is_correct := if ¬ isChoiceLabel ua then false else ua = some q.answer
            options := q.options }, ?_, ?_, ?_⟩
  · simp only [submit_answer, hq]
  · rintro ⟨hA, hB, hC, hD⟩
    have hval : isChoiceLabel ua = false := by
      simp [isChoiceLabel, hA, hB, hC, hD]
    simp [hval]
  · rintro v rfl hset
    have hval : isChoiceLabel (some v) = true := by
      rcases hset with h | h | h | h <;> simp [isChoiceLabel, h]
    simp [hval]

/-- C4 witness: submitting "A" on the freshly started sample session yields the
redirect back to /quiz (one record appended, no error). -/
theorem submit_answer_scoring_witness :
    (submit_answer (some sampleStartSession) (some "A")).2 = SubmitResult.redirectQuiz := by
  obtain ⟨rec, h1, -, -⟩ := submit_answer_scoring sampleStartSession (some "A") sampleQ1 rfl
  rw [h1]

/-- The score formula as the spec words it: round(100 * correct / total, 2). -/
def spec_score (correct total : ℕ) : ℚ :=
  pyRound2 (100 * (correct : ℚ) / (total : ℚ))

/-- C5: for every completed quiz with total_questions > 0, show_results renders
a page whose correct count is the number of records with is_correct and whose
score is round(correct / total_questions * 100, 2), equal to the spec's
round(100 * correct / total_questions, 2); in particular 3 correct of 4 gives
75. -/
theorem show_results_score_formula (s : QuizSession) (now : ℚ)
    (hdone : s.current_index = s.total_questions) (hpos : 0 < s.total_questions) :
    (∃ r : ResultsRender,
       show_results (some s) now = ResultsPage.page r ∧
       r.correct = (s.answers.filter (fun a => a.is_correct)).length ∧
       r.score = spec_score r.correct s.total_questions) ∧
    spec_score 3 4 = 75 := by
  have htz : ¬ s.total_questions = 0 := by omega
  constructor
  · refine ⟨{ category := s.category
              total_questions := s.total_questions
              correct := (s.answers.filter (fun a => a.is_correct)).length
              score := pyRound2
                (((s.answers.filter (fun a => a.is_correct)).length : ℚ) /
                  (s.total_questions : ℚ) * 100)
              time_taken := format_time_taken (now - s.start_time)
              answers := s.answers }, ?_, rfl, ?_⟩
    · simp only [show_results, htz, if_false]
    · show pyRound2 _ = spec_score _ _
      unfold spec_score
      congr 1
      ring
  · unfold spec_score pyRound2 pyRoundHalfEven
    norm_num

/-- C5 witness: the score formula theorem applies to the completed sample
session; its concrete conjunct evaluates the spec formula at 3 of 4 to 75. -/
theorem show_results_score_formula_witness : spec_score 3 4 = 75 :=
  (show_results_score_formula sampleDoneSession 125 rfl (by decide)).2

/-- Elapsed-time rendering as the spec words it: after rounding to 2 decimal
places, integer minutes = floor(t / 60) and integer seconds = floor(t mod 60),
rendered as "<minutes>m <seconds>s". -/
def spec_elapsed_format (t : ℚ) : String :=
  let t2 := pyRound2 t
  toString ⌊t2 / 60⌋ ++ "m " ++ toString ⌊pyMod t2 60⌋ ++ "s"

/-- C6: for every elapsed time t, the code's duration rendering — int()
truncation applied to t // 60 and t % 60 after rounding t to 2 decimals —
agrees with the spec's floor-based description, and the concrete cases give
125 seconds = "2m 5s" and 59 seconds = "0m 59s". -/
theorem format_time_matches_spec :
    (∀ t : ℚ, format_time_taken t = spec_elapsed_format t) ∧
    format_time_taken 125 = "2m 5s" ∧ format_time_taken 59 = "0m 59s" := by
  have key : ∀ t : ℚ, format_time_taken t = spec_elapsed_format t := by
    intro t
    have h1 : pyTrunc ((pyFloorDiv (pyRound2 t) 60 : ℤ) : ℚ) = ⌊pyRound2 t / 60⌋ := by
      unfold pyTrunc pyFloorDiv
      split
      · exact Int.ceil_intCast _
      · exact Int.floor_intCast _
    have hmod : 0 ≤ pyMod (pyRound2 t) 60 := by
      unfold pyMod
      have hfl : (⌊pyRound2 t / 60⌋ : ℚ) ≤ pyRound2 t / 60 := Int.floor_le _
      have hmul : (60 : ℚ) * (⌊pyRound2 t / 60⌋ : ℚ) ≤ 60 * (pyRound2 t / 60) :=
        mul_le_mul_of_nonneg_left hfl (by norm_num)
      have hcancel : (60 : ℚ) * (pyRound2 t / 60) = pyRound2 t := by
        rw [mul_comm, div_mul_cancel₀]
        norm_num
      linarith
    have h2 : pyTrunc (pyMod (pyRound2 t) 60) = ⌊pyMod (pyRound2 t) 60⌋ := by
      unfold pyTrunc
      rw [if_neg (not_lt.mpr hmod)]
    unfold format_time_taken spec_elapsed_format
    simp only [h1, h2]
  have c125 : format_time_taken 125 = "2m 5s" := by
    have h : pyRound2 125 = 125 := by
      unfold pyRound2 pyRoundHalfEven
      norm_num
    have h2 : pyFloorDiv (125 : ℚ) 60 = 2 := by unfold pyFloorDiv; norm_num
    have h3 : pyMod (125 : ℚ) 60 = 5 := by unfold pyMod; norm_num
    have h4 : pyTrunc ((2 : ℤ) : ℚ) = 2 := by unfold pyTrunc; norm_num
    have h5 : pyTrunc (5 : ℚ) = 5 := by unfold pyTrunc; norm_num
    unfold format_time_taken
    rw [h]
    simp only [h2, h3, h4, h5]
    rfl
  have c59 : format_time_taken 59 = "0m 59s" := by
    have h : pyRound2 59 = 59 := by
      unfold pyRound2 pyRoundHalfEven
      norm_num
    have h2 : pyFloorDiv (59 : ℚ) 60 = 0 := by
      unfold pyFloorDiv
      rw [Int.floor_eq_zero_iff]
      constructor <;> norm_num
    have h3 : pyMod (59 : ℚ) 60 = 59 := by
      unfold pyMod
      rw [show ⌊(59 : ℚ) / 60⌋ = 0 from by rw [Int.floor_eq_zero_iff]; constructor <;> norm_num]
      norm_num
    have h4 : pyTrunc ((0 : ℤ) : ℚ) = 0 := by unfold pyTrunc; norm_num
    have h5 : pyTrunc (59 : ℚ) = 59 := by unfold pyTrunc; norm_num
    unfold format_time_taken
    rw [h]
    simp only [h2, h3, h4, h5]
    rfl
  exact ⟨key, c125, c59⟩

/-- C7: every failed login — unknown email, or known email with a failing hash
check — renders the same single message "Invalid email or password", so the
failure output cannot distinguish which field was wrong; any two failing runs
produce identical messages. -/
theorem login_failure_single_message (check : String → String → Bool)
    (users : List UserRec) :
    (∀ email password : String,
       users.find? (fun u => u.email = email) = none →
       login check users email password =
         LoginResult.failure "Invalid email or password") ∧
    (∀ (email password : String) (u0 : UserRec),
       users.find? (fun u => u.email = email) = some u0 →
       check u0.password password = false →
       login check users email password =
         LoginResult.failure "Invalid email or password") ∧
    (∀ e1 p1 e2 p2 m1 m2 : String,
       login check users e1 p1 = LoginResult.failure m1 →
       login check users e2 p2 = LoginResult.failure m2 → m1 = m2) := by
  have key : ∀ e p m, login check users e p = LoginResult.failure m →
      m = "Invalid email or password" := by
    intro e p m h
    cases hf : users.find? (fun u => u.email = e) with
    | none =>
      simp only [login, hf] at h
      exact (LoginResult.failure.inj h).symm
    | some u0 =>
      simp only [login, hf] at h
      split at h
      · exact LoginResult.noConfusion h
      · exact (LoginResult.failure.inj h).symm
  refine ⟨?_, ?_, ?_⟩
  · intro e p h
    unfold login
    rw [h]
  · intro e p u0 h hc
    simp [login, h, hc]
  · intro e1 p1 e2 p2 m1 m2 h1 h2
    rw [key e1 p1 m1 h1, key e2 p2 m2 h2]

/-- The sample user table: one registered user. -/
def sampleUsers : List UserRec :=
  [{ email := "alice@mail.test", username := "alice", password := "hash1" }]

/-- A sample stand-in for check_password_hash: the hash check passes exactly
when the stored hash equals the offered password. -/
def sampleCheck : String → String → Bool :=
  fun stored given => stored = given

/-- C7 witness: an unknown email and a known email with a wrong password both
produce the identical failure message. -/
theorem login_failure_single_message_witness :
    login sampleCheck sampleUsers "nobody@mail.test" "pw" =
      LoginResult.failure "Invalid email or password" ∧
    login sampleCheck sampleUsers "alice@mail.test" "wrong" =
      LoginResult.failure "Invalid email or password" := by
  obtain ⟨h1, h2, -⟩ := login_failure_single_message sampleCheck sampleUsers
  exact ⟨h1 "nobody@mail.test" "pw" (by decide),
         h2 "alice@mail.test" "wrong"
           { email := "alice@mail.test", username := "alice", password := "hash1" }
           (by decide) (by decide)⟩

/-- C8 counterexample: POST /submit in a session where no quiz was ever
started does not redirect anywhere — reading session['current_index'] raises a
KeyError, refuting the claim that every quiz-state endpoint redirects to the
selection screen. -/
theorem submit_no_quiz_keyerror_cex :
    submit_answer none (some "A") = (none, SubmitResult.keyErr) := rfl

/-- C8 amended: with no quiz state present, GET /quiz and GET /results
redirect to the category/home selection screen, but POST /submit raises a
KeyError on session['current_index'] instead of redirecting. -/
theorem quiz_state_guards_amended :
    show_question none = QuizPage.redirectIndex ∧
    (∀ now : ℚ, show_results none now = ResultsPage.redirectIndex) ∧
    (∀ a : Option String, submit_answer none a = (none, SubmitResult.keyErr)) :=
  ⟨rfl, fun _ => rfl, fun _ => rfl⟩

/-- C9: the claim states unauthenticated requests to GET /quiz and POST /submit
are redirected to the login view, but the @login_required decorator on both
handlers is commented out (app.py 158, 181), so the routes carry no guard: an
unauthenticated request runs the handler (here reaching the no-quiz redirect
home, and the KeyError, respectively), while the guarded GET /results route
does redirect the same request to login. -/
theorem quiz_routes_lack_login_guard :
    show_question_route.requiresLogin = false ∧
    submit_answer_route.requiresLogin = false ∧
    runRoute show_question_route false none = some QuizPage.redirectIndex ∧
    runRoute submit_answer_route false (none, some "A") =
      some (none, SubmitResult.keyErr) ∧
    runRoute show_results_route false (none, 0) = none :=
  ⟨rfl, rfl, rfl, rfl, rfl⟩

/-- C10: in a session whose quiz is complete (current_index = total_questions =
len(questions)), a further POST /submit appends nothing and redirects nowhere:
indexing session['questions'][current_index] raises an IndexError before any
state change, because submit_answer indexes the question list with no
completion check. -/
theorem submit_after_completion_indexerror (s : QuizSession) (a : Option String)
    (hdone : s.current_index = s.total_questions)
    (hlen : s.questions.length = s.total_questions) :
    submit_answer (some s) a = (some s, SubmitResult.indexErr) := by
  have hnone : s.questions.get? s.current_index = none :=
    List.get?_eq_none.mpr (by omega)
  simp only [submit_answer, hnone]

/-- C10 witness: submitting once more on the completed sample session leaves it
unchanged and raises the IndexError. -/
theorem submit_after_completion_indexerror_witness :
    submit_answer (some sampleDoneSession) (some "A") =
      (some sampleDoneSession, SubmitResult.indexErr) :=
  submit_after_completion_indexerror sampleDoneSession (some "A") rfl rfl
